import Mathlib

/-!
Shallow embedding of `src/app.py` (a Streamlit production-task tracker backed
by a Google Sheet) and proofs about its task lifecycle and metric formulas.

Python `datetime` objects are modelled as a day index (days since 1900-01-01,
the default date `strptime` fills in when the format contains only a time of
day) plus seconds within the day, with exact rational arithmetic in place of
floating point.  The worksheet is a list of rows of dynamically typed cells,
and the Streamlit session dictionary `st.session_state.running_tasks` is an
insertion-ordered association list, matching Python `dict` semantics.
-/

set_option autoImplicit false

namespace ProductionApp

/-- A Python `datetime`: `day` counts days since 1900-01-01 (the date
`datetime.strptime` defaults to when the format string carries no date
fields), `sec` is seconds since midnight of that day.  The program only ever
formats and parses whole seconds (`%H:%M:%S`), so sub-second precision is not
modelled. -/
structure PyDatetime where
  day : ℤ
  sec : ℤ
deriving DecidableEq, Repr

/-- `(a - b).total_seconds()` for two `datetime` values. -/
def total_seconds (a b : PyDatetime) : ℚ :=
  ((86400 * (a.day - b.day) + (a.sec - b.sec) : ℤ) : ℚ)

/-- `hours = (end_time - task["Start Time"]).total_seconds() / 3600`
(src/app.py line 122). -/
def hoursOf (endTime startTime : PyDatetime) : ℚ :=
  total_seconds endTime startTime / 3600

/-- Split a character list at every colon, keeping empty groups, the way
`strptime`'s regex splits `"%H:%M:%S"` input at the literal separators. -/
def splitOnColon (cs : List Char) : List (List Char) :=
  cs.foldr
    (fun c acc =>
      match acc with
      | [] => [[c]]
      | g :: gs => if c = ':' then [] :: g :: gs else (c :: g) :: gs)
    [[]]

/-- Digit characters to the natural number they spell. -/
def digitsToNat (cs : List Char) : ℕ :=
  cs.foldl (fun a c => 10 * a + (c.toNat - 48)) 0

/-- One `%H`/`%M`/`%S` field: one or two digit characters, nothing else. -/
def parseField (cs : List Char) : Option ℕ :=
  if cs ≠ [] ∧ cs.length ≤ 2 ∧ cs.all Char.isDigit then some (digitsToNat cs)
  else none

/-- `datetime.strptime(s, "%H:%M:%S")` (src/app.py line 54): accepts exactly
three colon-separated fields of one or two digits with `H ≤ 23`, `M ≤ 59`,
`S ≤ 61` (CPython admits leap seconds), and — because the format carries no
date directive — returns a datetime on the default date 1900-01-01 (day 0).
Any other input raises `ValueError`, modelled as `none`. -/
def strptimeHMS (s : String) : Option PyDatetime :=
  match splitOnColon s.toList with
  | [hs, ms, ss] =>
    match parseField hs, parseField ms, parseField ss with
    | some h, some m, some sec =>
      if h ≤ 23 ∧ m ≤ 59 ∧ sec ≤ 61 then
        some ⟨0, ((3600 * h + 60 * m + sec : ℕ) : ℤ)⟩
      else none
    | _, _, _ => none
  | _ => none

/-- Two-digit zero padding used by `strftime`. -/
def pad2 (n : ℕ) : String :=
  if n < 10 then "0" ++ toString n else toString n

/-- `dt.strftime("%H:%M:%S")` (src/app.py line 80): render the whole seconds
within the day as `HH:MM:SS`. -/
def fmtHMS (dt : PyDatetime) : String :=
  let n : ℕ := dt.sec.toNat
  pad2 (n / 3600 % 24) ++ ":" ++ pad2 (n % 3600 / 60) ++ ":" ++ pad2 (n % 60)

/-- `dt.strftime("%d-%m-%Y")` (src/app.py line 78).  No claim inspects the
text of the formatted date, so the embedding renders it injectively from the
day index rather than spelling out the Gregorian calendar. -/
def fmtDate (dt : PyDatetime) : String :=
  "date-" ++ toString dt.day

/-- `str(datetime.now().timestamp())` (src/app.py line 73): decimal rendering
of the POSIX timestamp.  Day 0 of the embedding is 1900-01-01, which lies
25567 days before the POSIX epoch 1970-01-01; the unmodelled sub-second part
renders as the float's trailing `.0`. -/
def timestampStr (dt : PyDatetime) : String :=
  toString (86400 * (dt.day - 25567) + dt.sec) ++ ".0"

/-- The three derived metrics computed by the end-task handler. -/
structure Metrics where
  per_hour : ℚ
  per_man_hour : ℚ
  packaging_cost : ℚ
deriving DecidableEq, Repr

/-- src/app.py line 124:
`per_hour = task["Actual Production"] / hours if hours > 0 else 0`. -/
def per_hour (hours actual_production : ℚ) : ℚ :=
  if hours > 0 then actual_production / hours else 0

/-- src/app.py line 125:
`per_man_hour = task["Actual Production"] / (hours * task["Total Persons"])
 if (hours > 0 and task["Total Persons"] > 0) else 0`. -/
def per_man_hour (hours actual_production : ℚ) (total_persons : ℤ) : ℚ :=
  if hours > 0 ∧ total_persons > 0 then
    actual_production / (hours * (total_persons : ℚ))
  else 0

/-- src/app.py line 126:
`packaging_cost = 50 / per_man_hour if per_man_hour > 0 else 0`. -/
def packaging_cost (pmh : ℚ) : ℚ :=
  if pmh > 0 then 50 / pmh else 0

/-- The three assignments of src/app.py lines 124-126 together. -/
def computeMetrics (hours actual_production : ℚ) (total_persons : ℤ) : Metrics :=
  ⟨per_hour hours actual_production,
   per_man_hour hours actual_production total_persons,
   packaging_cost (per_man_hour hours actual_production total_persons)⟩

/-- Division defined only when the denominator is strictly positive; used to
show every division the end-task handler performs has a positive denominator. -/
def qdivPos (a b : ℚ) : Option ℚ :=
  if 0 < b then some (a / b) else none

/-- The end-task computation of src/app.py lines 122-126 with every `/`
replaced by `qdivPos`, which fails unless the denominator is strictly
positive.  Returns `(hours, per_hour, per_man_hour, packaging_cost)`. -/
def computeMetricsChecked (endTime startTime : PyDatetime)
    (actual_production : ℚ) (total_persons : ℤ) : Option (ℚ × ℚ × ℚ × ℚ) :=
  (qdivPos (total_seconds endTime startTime) 3600).bind fun hours =>
  (if hours > 0 then qdivPos actual_production hours else some 0).bind fun ph =>
  (if hours > 0 ∧ total_persons > 0 then
      qdivPos actual_production (hours * (total_persons : ℚ))
    else some 0).bind fun pmh =>
  (if pmh > 0 then qdivPos 50 pmh else some 0).bind fun pc =>
  some (hours, ph, pmh, pc)

/-- A dynamically typed worksheet cell value: the program stores strings and
integers (product names, formatted times, person counts, statuses). -/
inductive PyVal where
  | str (s : String)
  | int (n : ℤ)
deriving DecidableEq, Repr

/-- The worksheet: a list of rows of cells.  Row 1 (list index 0) is the
fixed 12-column header appended at src/app.py lines 26-31. -/
abbrev Sheet : Type := List (List PyVal)

/-- gspread `Worksheet.update_cell(row, col, value)`: `row` and `col` are
required 1-based integer coordinates and `value` is a required third
argument.  A call that passes a non-integer coordinate, or omits `value`
(modelled as `none`), raises a client-side `TypeError` before anything is
written; this is the contract the cancel handler violates at
src/app.py line 152. -/
def update_cell (s : Sheet) (row col : PyVal) (value : Option PyVal) :
    Except String Sheet :=
  match row, col, value with
  | .int r, .int c, some v =>
    if 1 ≤ r ∧ 1 ≤ c then
      Except.ok (s.set (r.toNat - 1) ((s.getD (r.toNat - 1) []).set (c.toNat - 1) v))
    else Except.error "gspread: invalid cell coordinates"
  | _, _, none =>
    Except.error "TypeError: update_cell() missing 1 required positional argument: value"
  | _, _, _ =>
    Except.error "TypeError: update_cell() row and col must be integers"

/-- The fields of one record of `sheet.get_all_records()` that the restore
loop reads (src/app.py lines 45-59). -/
structure Record where
  date : String
  productName : String
  startTime : String
  totalPersons : ℤ
  actualProduction : ℤ
  remark : String
  status : String
deriving DecidableEq, Repr

/-- gspread's rendering of a cell as the string a record reports. -/
def cellToStr : PyVal → String
  | .str s => s
  | .int n => toString n

/-- gspread's rendering of a cell as a number (numeric cells only). -/
def cellToInt : PyVal → ℤ
  | .str _ => 0
  | .int n => n

/-- One record of `sheet.get_all_records()`: the row's cells keyed by the
fixed header (Date, Product Name, Start Time, End Time, Hours, Total
Persons, Actual Production, Per Hour Production, Per Man Hour, Packaging
Cost, Remark, Status), read here by column position. -/
def recordOfRow (cells : List PyVal) : Record where
  date := cellToStr (cells.getD 0 (.str ""))
  productName := cellToStr (cells.getD 1 (.str ""))
  startTime := cellToStr (cells.getD 2 (.str ""))
  totalPersons := cellToInt (cells.getD 5 (.int 0))
  actualProduction := cellToInt (cells.getD 6 (.int 0))
  remark := cellToStr (cells.getD 10 (.str ""))
  status := cellToStr (cells.getD 11 (.str ""))

/-- `sheet.get_all_records()`: every data row (the header row dropped) as a
record, in sheet order. -/
def get_all_records (s : Sheet) : List Record :=
  (s.drop 1).map recordOfRow

/-- One in-memory task dictionary, as stored in
`st.session_state.running_tasks` (src/app.py lines 50-59 and 92-101). -/
structure Task where
  row : ℕ
  date : String
  product_name : String
  start_time : PyDatetime
  total_persons : ℤ
  actual_production : ℤ
  remark : String
  status : String
deriving DecidableEq, Repr

/-- `st.session_state.running_tasks`: a Python `dict` keyed by task id,
modelled as an insertion-ordered association list (new keys append at the
end, exactly Python's iteration order). -/
abbrev TaskMap : Type := List (String × Task)

/-- Python `task_id in st.session_state.running_tasks`. -/
def hasKey (m : TaskMap) (k : String) : Bool :=
  m.any (fun p => p.1 = k)

/-- Python `st.session_state.running_tasks[task_id]` as a partial lookup. -/
def lookupTask : TaskMap → String → Option Task
  | [], _ => none
  | p :: ps, k => if p.1 = k then some p.2 else lookupTask ps k

/-- Python `st.session_state.running_tasks[task_id] = task` for a fresh key:
appends the binding (the program only ever assigns fresh keys). -/
def insertTask (m : TaskMap) (k : String) (t : Task) : TaskMap :=
  m ++ [(k, t)]

/-- Python `del st.session_state.running_tasks[task_id]`. -/
def eraseKey (m : TaskMap) (k : String) : TaskMap :=
  m.filter (fun p => p.1 ≠ k)

/-- The task dictionary the restore loop rebuilds from a sheet record
(src/app.py lines 50-59): `dt` is the parsed Start Time. -/
def taskOfRecord (idx : ℕ) (r : Record) (dt : PyDatetime) : Task where
  row := idx
  date := r.date
  product_name := r.productName
  start_time := dt
  total_persons := r.totalPersons
  actual_production := r.actualProduction
  remark := r.remark
  status := "Running"

/-- The restore loop of src/app.py lines 45-59, one record at a time with
`idx` the 1-based sheet row of the first record (`enumerate(records,
start=2)`).  For a record with `Status == "Running"` whose key `row_{idx}`
is not yet present, the Start Time is parsed; a parse failure raises
`ValueError`, which nothing catches — the scan stops there, keeping the
entries added so far (`true` in the result flags the uncaught exception). -/
def restore (m : TaskMap) (idx : ℕ) : List Record → TaskMap × Bool
  | [] => (m, false)
  | r :: rs =>
    if r.status = "Running" then
      if hasKey m ("row_" ++ toString idx) then restore m (idx + 1) rs
      else
        match strptimeHMS r.startTime with
        | none => (m, true)
        | some dt =>
          restore (insertTask m ("row_" ++ toString idx) (taskOfRecord idx r dt))
            (idx + 1) rs
    else restore m (idx + 1) rs

/-- The whole restore scan: `for idx, row in enumerate(records, start=2)`
over `sheet.get_all_records()` (the spec's `restore_running_tasks`). -/
def restore_running_tasks (m : TaskMap) (s : Sheet) : TaskMap × Bool :=
  restore m 2 (get_all_records s)

/-- The start-task form handler (src/app.py lines 71-105).  When
`product_name` is truthy (non-empty) and `total_persons > 0`, a new row is
appended with Status `"Running"`, the 1-based row index is read back as
`len(sheet.get_all_values())`, and the task is stored under the key
`str(datetime.now().timestamp())`; otherwise an error is shown and nothing
changes.  Returns the sheet, the task map, and whether the task started. -/
def start_task (sheet : Sheet) (tasks : TaskMap) (now : PyDatetime)
    (product_name : String) (total_persons : ℤ) (actual_production : ℤ)
    (remark : String) : Sheet × TaskMap × Bool :=
  if product_name ≠ "" ∧ total_persons > 0 then
    let task_id := timestampStr now
    let sheet' := sheet ++
      [[.str (fmtDate now), .str product_name, .str (fmtHMS now),
        .str "", .str "",
        .int total_persons, .int actual_production,
        .str "", .str "", .str "",
        .str remark, .str "Running"]]
    let row_index := sheet'.length
    let task : Task :=
      { row := row_index, date := fmtDate now, product_name := product_name,
        start_time := now, total_persons := total_persons,
        actual_production := actual_production, remark := remark,
        status := "Running" }
    (sheet', insertTask tasks task_id task, true)
  else (sheet, tasks, false)

/-- The cancel button handler (src/app.py lines 150-154): it calls
`sheet.update_cell(f"L{row}", "Cancelled")` — an A1 cell reference where
`update_cell` expects an integer row, an integer column and a value — and
only afterwards deletes the task from the in-memory dictionary.  If the
update raises, the deletion never runs and the state is unchanged. -/
def cancel_task (sheet : Sheet) (tasks : TaskMap) (task_id : String)
    (task : Task) : Except String (Sheet × TaskMap) :=
  match update_cell sheet (.str ("L" ++ toString task.row)) (.str "Cancelled") none with
  | .error e => .error e
  | .ok sheet' => .ok (sheet', eraseKey tasks task_id)

/-! ## Helper lemmas -/

theorem qdivPos_of_pos {a b : ℚ} (h : 0 < b) : qdivPos a b = some (a / b) :=
  if_pos h

theorem step_per_hour (hours prod : ℚ) :
    (if hours > 0 then qdivPos prod hours else some 0) =
      some (per_hour hours prod) := by
  by_cases h : hours > 0
  · rw [if_pos h, per_hour, if_pos h, qdivPos_of_pos h]
  · rw [if_neg h, per_hour, if_neg h]

theorem step_per_man_hour (hours prod : ℚ) (tp : ℤ) :
    (if hours > 0 ∧ tp > 0 then qdivPos prod (hours * (tp : ℚ)) else some 0) =
      some (per_man_hour hours prod tp) := by
  by_cases h : hours > 0 ∧ tp > 0
  · have hpos : (0:ℚ) < hours * (tp : ℚ) := mul_pos h.1 (by exact_mod_cast h.2)
    rw [if_pos h, per_man_hour, if_pos h, qdivPos_of_pos hpos]
  · rw [if_neg h, per_man_hour, if_neg h]

theorem step_packaging_cost (pmh : ℚ) :
    (if pmh > 0 then qdivPos 50 pmh else some 0) = some (packaging_cost pmh) := by
  by_cases h : pmh > 0
  · rw [if_pos h, packaging_cost, if_pos h, qdivPos_of_pos h]
  · rw [if_neg h, packaging_cost, if_neg h]

theorem hasKey_insertTask_self (m : TaskMap) (k : String) (t : Task) :
    hasKey (insertTask m k t) k = true := by
  simp [hasKey, insertTask]

theorem hasKey_insertTask_of {m : TaskMap} {k : String} (k' : String) (t : Task)
    (h : hasKey m k = true) : hasKey (insertTask m k' t) k = true := by
  simp [hasKey, insertTask] at h ⊢
  exact Or.inl h

/-- A key present in the task dictionary is still present after any restore
scan: the scan only ever adds entries. -/
theorem hasKey_restore_mono {m : TaskMap} {k : String} (idx : ℕ)
    (rs : List Record) (h : hasKey m k = true) :
    hasKey (restore m idx rs).1 k = true := by
  induction rs generalizing m idx with
  | nil => exact h
  | cons r rs ih =>
    rw [restore]
    by_cases hst : r.status = "Running"
    · rw [if_pos hst]
      by_cases hk : hasKey m ("row_" ++ toString idx) = true
      · rw [if_pos hk]; exact ih _ h
      · rw [if_neg hk]
        cases hp : strptimeHMS r.startTime with
        | none => exact h
        | some dt => exact ih _ (hasKey_insertTask_of _ _ h)
    · rw [if_neg hst]; exact ih _ h

/-- Running the restore loop over the same record list a second time changes
nothing: every key it would add is already present. -/
theorem restore_idem (m : TaskMap) (idx : ℕ) (rs : List Record) :
    restore (restore m idx rs).1 idx rs = restore m idx rs := by
  induction rs generalizing m idx with
  | nil => rfl
  | cons r rs ih =>
    by_cases hst : r.status = "Running"
    · by_cases hk : hasKey m ("row_" ++ toString idx) = true
      · have e1 : restore m idx (r :: rs) = restore m (idx + 1) rs := by
          rw [restore, if_pos hst, if_pos hk]
        rw [e1, restore, if_pos hst,
          if_pos (hasKey_restore_mono (idx + 1) rs hk)]
        exact ih _ _
      · cases hp : strptimeHMS r.startTime with
        | none =>
          have e1 : restore m idx (r :: rs) = (m, true) := by
            rw [restore, if_pos hst, if_neg hk, hp]
          rw [e1, restore, if_pos hst, if_neg hk, hp]
        | some dt =>
          have e1 : restore m idx (r :: rs) =
              restore (insertTask m ("row_" ++ toString idx)
                (taskOfRecord idx r dt)) (idx + 1) rs := by
            rw [restore, if_pos hst, if_neg hk, hp]
          have hk2 : hasKey (restore (insertTask m ("row_" ++ toString idx)
              (taskOfRecord idx r dt)) (idx + 1) rs).1
              ("row_" ++ toString idx) = true :=
            hasKey_restore_mono (idx + 1) rs (hasKey_insertTask_self _ _ _)
          rw [e1, restore, if_pos hst, if_pos hk2]
          exact ih _ _
    · have e1 : restore m idx (r :: rs) = restore m (idx + 1) rs := by
        rw [restore, if_neg hst]
      rw [e1, restore, if_neg hst]
      exact ih _ _

/-- Whatever `strptime` with format `"%H:%M:%S"` returns lies on its default
date 1900-01-01, day 0 of the embedding. -/
theorem strptimeHMS_day_eq_zero {s : String} {dt : PyDatetime}
    (h : strptimeHMS s = some dt) : dt.day = 0 := by
  unfold strptimeHMS at h
  split at h
  · split at h
    · split at h
      · cases h; rfl
      · exact Option.noConfusion h
    all_goals exact Option.noConfusion h
  · exact Option.noConfusion h

theorem lookupTask_insertTask {m : TaskMap} {k k' : String} {t tk : Task}
    (h : lookupTask (insertTask m k' t) k = some tk) :
    lookupTask m k = some tk ∨ tk = t := by
  induction m with
  | nil =>
    rw [insertTask, List.nil_append, lookupTask] at h
    by_cases hk : k' = k
    · rw [if_pos hk] at h
      exact Or.inr (Option.some.inj h).symm
    · rw [if_neg hk] at h
      exact Option.noConfusion h
  | cons p ps ih =>
    rw [insertTask, List.cons_append, lookupTask] at h
    rw [lookupTask]
    by_cases hk : p.1 = k
    · rw [if_pos hk] at h ⊢
      exact Or.inl h
    · rw [if_neg hk] at h ⊢
      exact ih h

/-! ## Concrete scenario data -/

/-- The fixed 12-column header row (src/app.py lines 27-31). -/
def headerRow : List PyVal :=
  [.str "Date", .str "Product Name", .str "Start Time", .str "End Time",
   .str "Hours", .str "Total Persons", .str "Actual Production",
   .str "Per Hour Production", .str "Per Man Hour", .str "Packaging Cost",
   .str "Remark", .str "Status"]

/-- A well-formed Running record whose Start Time is 09:00:00. -/
def recAlpha : Record :=
  ⟨"01-01-2024", "alpha", "09:00:00", 2, 100, "", "Running"⟩

/-- A Running record whose Start Time cell is empty (missing). -/
def recNoTime : Record :=
  ⟨"01-01-2024", "beta", "", 1, 50, "", "Running"⟩

/-- A well-formed Running record whose Start Time is 10:30:00. -/
def recGamma : Record :=
  ⟨"01-01-2024", "gamma", "10:30:00", 3, 70, "", "Running"⟩

/-- Starting one task ("widget", 2 persons, production 100) at 09:00:00 on
day 45000 in a fresh session over a sheet holding only the header. -/
def c1Started : Sheet × TaskMap × Bool :=
  start_task [headerRow] [] ⟨45000, 32400⟩ "widget" 2 100 ""

/-- The restore scan that the next script rerun performs over the sheet and
session state left by `c1Started`. -/
def c1AfterRestore : TaskMap × Bool :=
  restore_running_tasks c1Started.2.1 c1Started.1

/-- A Running in-memory task backed by sheet row 2. -/
def c5Task : Task :=
  { row := 2, date := "01-01-2024", product_name := "alpha",
    start_time := ⟨45000, 32400⟩, total_persons := 2,
    actual_production := 100, remark := "", status := "Running" }

/-! ## Claims -/

/-- C1: starting a task and then running the restore scan leaves TWO
in-memory tasks for the single Running row 2, not one: the scan only skips
keys of the form `row_{idx}`, and the start handler keyed its entry by the
start timestamp, so the row is rehydrated a second time.  The sheet has one
data row (length 2 with the header), the scan finishes without error, yet
two distinct entries with `row = 2` are in memory — the claimed invariant
fails on the code. -/
theorem c1_duplicate_task_after_start_then_restore :
    c1Started.1.length = 2 ∧
    c1AfterRestore.2 = false ∧
    (c1AfterRestore.1.filter (fun p => p.2.row = 2)).length = 2 := by
  decide

/-- C2: whenever `hours ≤ 0`, the end-task metrics are all zero —
`per_hour = 0`, `per_man_hour = 0`, `packaging_cost = 0` — by the guards at
src/app.py lines 124-126. -/
theorem c2_zero_metrics_on_nonpositive_hours (hours prod : ℚ) (tp : ℤ)
    (h : hours ≤ 0) : computeMetrics hours prod tp = ⟨0, 0, 0⟩ := by
  have h1 : ¬ hours > 0 := not_lt.mpr h
  simp [computeMetrics, per_hour, per_man_hour, packaging_cost, h1]

/-- C2 witness: negative hours (clock skew) at concrete values. -/
theorem c2_zero_metrics_witness :
    (-1 : ℚ) ≤ 0 ∧ computeMetrics (-1) 100 5 = ⟨0, 0, 0⟩ :=
  ⟨by norm_num, c2_zero_metrics_on_nonpositive_hours (-1) 100 5 (by norm_num)⟩

/-- C3 counterexample: scanning `[recAlpha, recNoTime, recGamma]` is NOT
per-row skipping — the malformed Start Time of the second record raises an
uncaught `ValueError` (flag `true`) and the third record, which the claim
says would still be restored, never is. -/
theorem c3_scan_aborts_counterexample :
    (restore [] 2 [recAlpha, recNoTime, recGamma]).2 = true ∧
    hasKey (restore [] 2 [recAlpha, recNoTime, recGamma]).1 "row_4" = false ∧
    hasKey (restore [] 2 [recAlpha, recNoTime, recGamma]).1 "row_2" = true := by
  decide

/-- C3 (amended): a Running row with a missing or malformed Start Time that
is not already tracked raises `ValueError` and the whole restore scan stops
there: entries restored earlier survive, but the bad row and every row after
it are left unscanned. -/
theorem c3_bad_start_time_aborts_scan {m : TaskMap} {r : Record}
    (idx : ℕ) (rs : List Record) (hst : r.status = "Running")
    (hk : hasKey m ("row_" ++ toString idx) = false)
    (hp : strptimeHMS r.startTime = none) :
    restore m idx (r :: rs) = (m, true) := by
  rw [restore, if_pos hst, if_neg (by rw [hk]; exact Bool.noConfusion), hp]

/-- C3 witness: the empty-Start-Time record aborts a concrete scan. -/
theorem c3_bad_start_time_witness :
    restore [] 2 [recNoTime, recGamma] = ([], true) :=
  c3_bad_start_time_aborts_scan 2 [recGamma] (by decide) (by decide) (by decide)

/-- C4 counterexample: restoring `recAlpha` (Start Time 09:00:00) on day
45000 yields a task whose `start_time` sits on day 0 (1900-01-01), not on
the current day 45000; ending it the same day at 11:00:00 gives
`hours = 1080002`, not the 2-hour elapsed fraction of the current day the
claim asserts. -/
theorem c4_start_time_counterexample :
    lookupTask (restore [] 2 [recAlpha]).1 "row_2" =
      some (taskOfRecord 2 recAlpha ⟨0, 32400⟩) ∧
    (taskOfRecord 2 recAlpha ⟨0, 32400⟩).start_time.day ≠ 45000 ∧
    hoursOf ⟨45000, 39600⟩ (taskOfRecord 2 recAlpha ⟨0, 32400⟩).start_time
      = 1080002 ∧
    (1080002 : ℚ) ≠ 2 := by
  refine ⟨by decide, by decide, ?_, by norm_num⟩
  norm_num [hoursOf, total_seconds, taskOfRecord]

/-- C4 (amended): every task the restore scan itself creates has its
`start_time` on `strptime`'s default date 1900-01-01 (day 0), not on the
date the restore runs; `hours` at a later end therefore measures the offset
from 1900-01-01, not the elapsed fraction of the current day. -/
theorem c4_restored_start_time_on_default_date {m : TaskMap} {k : String}
    {t : Task} (idx : ℕ) (rs : List Record)
    (h : lookupTask (restore m idx rs).1 k = some t) :
    lookupTask m k = some t ∨ t.start_time.day = 0 := by
  induction rs generalizing m idx with
  | nil => exact Or.inl h
  | cons r rs ih =>
    rw [restore] at h
    by_cases hst : r.status = "Running"
    · rw [if_pos hst] at h
      by_cases hk : hasKey m ("row_" ++ toString idx) = true
      · rw [if_pos hk] at h; exact ih _ h
      · rw [if_neg hk] at h
        cases hp : strptimeHMS r.startTime with
        | none => rw [hp] at h; exact Or.inl h
        | some dt =>
          rw [hp] at h
          rcases ih _ h with h2 | h2
          · rcases lookupTask_insertTask h2 with h3 | h3
            · exact Or.inl h3
            · subst h3
              exact Or.inr (strptimeHMS_day_eq_zero hp)
          · exact Or.inr h2
    · rw [if_neg hst] at h; exact ih _ h

/-- C4 witness: the concrete restored task of `recAlpha` indeed has day 0. -/
theorem c4_restored_start_time_witness :
    lookupTask [] "row_2" = some (taskOfRecord 2 recAlpha ⟨0, 32400⟩) ∨
    (taskOfRecord 2 recAlpha ⟨0, 32400⟩).start_time.day = 0 :=
  c4_restored_start_time_on_default_date 2 [recAlpha] (by decide)

/-- C5: cancelling a Running task does not write Status="Cancelled" and does
not remove the task — the handler calls
`sheet.update_cell(f"L{row}", "Cancelled")` (src/app.py line 152), passing
an A1 string where `update_cell` requires integer row/col plus a value, so
the call raises `TypeError` before anything is written or deleted. -/
theorem c5_cancel_task_raises_type_error :
    cancel_task [headerRow] [("1679043600.0", c5Task)] "1679043600.0" c5Task =
      Except.error
        "TypeError: update_cell() missing 1 required positional argument: value" := rfl

/-- C6: a start request with an empty product name or fewer than one person
is rejected: the sheet gains no row and the in-memory set gains no task
(src/app.py line 72). -/
theorem c6_start_task_rejects_invalid (sheet : Sheet) (tasks : TaskMap)
    (now : PyDatetime) (name : String) (tp prod : ℤ) (remark : String)
    (h : name = "" ∨ tp < 1) :
    start_task sheet tasks now name tp prod remark = (sheet, tasks, false) := by
  have hcond : ¬ (name ≠ "" ∧ tp > 0) := by
    rintro ⟨h1, h2⟩
    rcases h with h | h
    · exact h1 h
    · omega
  rw [start_task, if_neg hcond]

/-- C6 witness: an empty product name at concrete values changes nothing. -/
theorem c6_start_task_rejects_witness :
    ("" = "" ∨ (5:ℤ) < 1) ∧
    start_task [headerRow] [] ⟨45000, 32400⟩ "" 5 100 "note" =
      ([headerRow], [], false) :=
  ⟨Or.inl rfl,
   c6_start_task_rejects_invalid [headerRow] [] ⟨45000, 32400⟩ "" 5 100 "note"
     (Or.inl rfl)⟩

/-- C7: `packaging_cost` equals `50 / per_man_hour` exactly when
`per_man_hour > 0` and is `0` otherwise, with the constant 50 as the fixed
cost (src/app.py line 126). -/
theorem c7_packaging_cost_formula (hours prod : ℚ) (tp : ℤ) :
    (computeMetrics hours prod tp).packaging_cost =
      if (computeMetrics hours prod tp).per_man_hour > 0 then
        50 / (computeMetrics hours prod tp).per_man_hour
      else 0 := by
  simp [computeMetrics, packaging_cost]

/-- C8: for positive hours, a positive person count and non-negative
production, `per_man_hour` is `per_hour` divided by the person count. -/
theorem c8_per_man_hour_eq_per_hour_div_persons (hours prod : ℚ) (tp : ℤ)
    (h1 : 0 < hours) (h2 : 0 < tp) (_h3 : 0 ≤ prod) :
    (computeMetrics hours prod tp).per_man_hour =
      (computeMetrics hours prod tp).per_hour / (tp : ℚ) := by
  simp [computeMetrics, per_hour, per_man_hour, h1, h2, div_div]

/-- C8 witness: 2 hours, 100 produced, 2 persons: 25 = 50 / 2. -/
theorem c8_per_man_hour_witness :
    (0:ℚ) < 2 ∧ (0:ℤ) < 2 ∧ (0:ℚ) ≤ 100 ∧
    (computeMetrics 2 100 2).per_man_hour =
      (computeMetrics 2 100 2).per_hour / 2 := by
  refine ⟨by norm_num, by norm_num, by norm_num, ?_⟩
  exact c8_per_man_hour_eq_per_hour_div_persons 2 100 2
    (by norm_num) (by norm_num) (by norm_num)

/-- C9: running the restore scan a second time over the unchanged sheet
reproduces exactly the state of the first run — no duplicate entries, same
outcome. -/
theorem c9_restore_running_tasks_idempotent (m : TaskMap) (s : Sheet) :
    restore_running_tasks (restore_running_tasks m s).1 s =
      restore_running_tasks m s := by
  simp only [restore_running_tasks]
  exact restore_idem m 2 (get_all_records s)

/-- C10: for every end time, start time, production and person count, the
end-task computation performs no division by a non-positive denominator:
with each `/` replaced by positivity-checked division it still succeeds, and
returns exactly the `hours`, `per_hour`, `per_man_hour` and `packaging_cost`
of the unchecked code. -/
theorem c10_no_unguarded_division (e s : PyDatetime) (prod : ℚ) (tp : ℤ) :
    computeMetricsChecked e s prod tp =
      some (hoursOf e s,
        per_hour (hoursOf e s) prod,
        per_man_hour (hoursOf e s) prod tp,
        packaging_cost (per_man_hour (hoursOf e s) prod tp)) := by
  have h3600 : (0:ℚ) < 3600 := by norm_num
  rw [computeMetricsChecked, qdivPos_of_pos h3600]
  simp only [Option.some_bind, step_per_hour, step_per_man_hour,
    step_packaging_cost, hoursOf]
  simp only [per_hour, packaging_cost]

end ProductionApp
